import Mathlib

/-!
Shallow embedding of the SERP monitor (src/serp_monitor.py, with the earlier
variant src/SERP_Monitor_log.py agreeing on all modelled behaviour).

Modelling conventions:
* Python floats (elapsed seconds, content sizes in KB, percentage rates) are
  embedded as rationals `ℚ`.
* `fetch` is a single Python coroutine whose body either completes the HTTP
  call or lands in the `except` branch; the network outcome is made explicit
  as an `HttpOutcome` value and `fetch` becomes a total function on it.
* `deque(maxlen=3)` is embedded as a list together with the push operation
  `windowPush` reproducing CPython semantics: plain append below capacity,
  append plus eviction of the head at capacity.
* Python dict-valued results (`analyze_results`) are embedded as functions
  from the engine name to `Option CycleStats` (a key is present iff the
  function returns `some`).
* `sorted(results, key=lambda x: x.get("timestamp", 0))` is a stable
  ascending sort on the timestamp; it is embedded with `List.mergeSort`,
  which is likewise stable.
-/

/-- The threshold/monitoring fields of `Config` used by the probe-cycle core
(src/serp_monitor.py lines 57-87). -/
structure Config where
  concurrency : Nat
  requests_per_engine : Nat
  threshold_success_rate : ℚ
  threshold_timeout_rate : ℚ
  timeout_limit : ℚ
  min_content_size_kb : ℚ
deriving DecidableEq

/-- One probe outcome dict as returned by `SERPMonitor.fetch`
(src/serp_monitor.py lines 274-283 and 302-312). -/
structure ProbeResult where
  engine : String
  term : String
  status : Nat
  elapsed : ℚ
  is_timeout : Bool
  success : Bool
  content_size : ℚ
  timestamp : ℚ
  exception : Option String
deriving DecidableEq

/-- `beginsWith sub s` is Python `s.startswith(sub)` on character lists. -/
def beginsWith : List Char → List Char → Bool
  | [], _ => true
  | _ :: _, [] => false
  | a :: as, b :: bs => a == b && beginsWith as bs

/-- `containsSeq sub s` is Python substring containment `sub in s`. -/
def containsSeq (sub : List Char) : List Char → Bool
  | [] => beginsWith sub []
  | s :: rest => beginsWith sub (s :: rest) || containsSeq sub rest

/-- Python `"html" in ct.lower()` from the success test in `fetch`
(src/serp_monitor.py line 270). -/
def hasHtmlMarker (ct : String) : Bool :=
  containsSeq "html".toList ct.toLower.toList

/-- The HTTP-layer outcome of the network call inside `fetch`: either the
response completed (status, Content-Type header, body byte length), or an
exception of some class and message was raised. -/
inductive HttpOutcome where
  | ok (status : Nat) (contentType : String) (bodyBytes : Nat)
  | exn (errType : String) (errText : String)
deriving DecidableEq

/-- `SERPMonitor.fetch` (src/serp_monitor.py lines 248-312): classify one
probe. On a completed response it computes the content size in KB, the
success flag (status 200, non-HTML content type, size at least the floor) and
the timeout flag (elapsed strictly above the policy limit). On any exception
it returns status 0, failure, timeout, zero size, and the diagnostic string
built from the exception class name and message. -/
def fetch (cfg : Config) (engine term : String) (outcome : HttpOutcome)
    (elapsed timestamp : ℚ) : ProbeResult :=
  match outcome with
  | .ok status contentType bodyBytes =>
      let content_size : ℚ := (bodyBytes : ℚ) / 1024
      { engine := engine
        term := term
        status := status
        elapsed := elapsed
        is_timeout := decide (elapsed > cfg.timeout_limit)
        success := decide (status = 200) && !hasHtmlMarker contentType &&
          decide (content_size ≥ cfg.min_content_size_kb)
        content_size := content_size
        timestamp := timestamp
        exception := none }
  | .exn errType errText =>
      { engine := engine
        term := term
        status := 0
        elapsed := elapsed
        is_timeout := true
        success := false
        content_size := 0
        timestamp := timestamp
        exception := some (errType ++ ": " ++ errText) }

/-- Membership of a status code in the server-error set `(500, 502, 504)`
used both by `analyze_results` (line 328) and the burst rule (lines 377-381). -/
def isServerError (c : Nat) : Bool :=
  c == 500 || c == 502 || c == 504

/-- The propositional form of the server-error status set. -/
def IsServerErrorCode (c : Nat) : Prop :=
  c = 500 ∨ c = 502 ∨ c = 504

/-- The per-engine grouping done at the top of `analyze_results`
(src/serp_monitor.py lines 316-318): the results of the batch whose
`engine` field equals the given name, in batch order. -/
def groupFor (results : List ProbeResult) (engine : String) : List ProbeResult :=
  results.filter (fun r => r.engine == engine)

/-- `round(x, 2)`: round to two decimal places. (Python rounds half to even
on floats; the tie-breaking scheme is immaterial to every claim proved here,
and the spec explicitly allows either scheme.) -/
def round2 (q : ℚ) : ℚ :=
  ((round (q * 100) : ℤ) : ℚ) / 100

/-- The per-engine statistics dict built by `analyze_results`
(src/serp_monitor.py lines 321-342). -/
structure CycleStats where
  total : Nat
  success : Nat
  timeout : Nat
  exceptions : Nat
  errors : Nat
  success_rate : ℚ
  timeout_rate : ℚ
  exception_rate : ℚ
  error_rate : ℚ
  results : List ProbeResult
deriving DecidableEq

/-- The body of the `for engine, group in grouped.items()` loop of
`analyze_results` (src/serp_monitor.py lines 321-342) for one nonempty
group. -/
def computeStats (group : List ProbeResult) : CycleStats :=
  let total := group.length
  let success := group.countP (fun r => r.success)
  let timeout := group.countP (fun r => r.is_timeout)
  let exceptions := group.countP (fun r => isServerError r.status)
  let errors := group.countP (fun r => r.status == 0)
  { total := total
    success := success
    timeout := timeout
    exceptions := exceptions
    errors := errors
    success_rate := round2 ((success : ℚ) / (total : ℚ) * 100)
    timeout_rate := round2 ((timeout : ℚ) / (total : ℚ) * 100)
    exception_rate := round2 ((exceptions : ℚ) / (total : ℚ) * 100)
    error_rate := round2 ((errors : ℚ) / (total : ℚ) * 100)
    results := group }

/-- `SERPMonitor.analyze_results` (src/serp_monitor.py lines 314-344), viewed
as the map from an engine name to its entry in the returned dict: `some`
stats when the engine has at least one result in the batch, `none` when it is
absent from the grouped keys (the `total == 0` guard in the source is the
same condition: a key of the `defaultdict` grouping always has a nonempty
group). -/
def analyze_results (results : List ProbeResult) (engine : String) :
    Option CycleStats :=
  if (groupFor results engine).length = 0 then none
  else some (computeStats (groupFor results engine))

/-- The numeric content of a `CycleStats`: the five counts and the four
rounded rates, without the transient `results` list. -/
def statsSummary (c : CycleStats) :
    (Nat × Nat × Nat × Nat × Nat) × (ℚ × ℚ × ℚ × ℚ) :=
  ((c.total, c.success, c.timeout, c.exceptions, c.errors),
   (c.success_rate, c.timeout_rate, c.exception_rate, c.error_rate))

/-- The success-rate alert condition in `check_alerts`
(src/serp_monitor.py lines 351-353): the rolling buffer holds exactly 3
entries and all of them are strictly below the threshold. -/
def successAlertFires (cfg : Config) (buf : List ℚ) : Bool :=
  buf.length == 3 && buf.all (fun x => decide (x < cfg.threshold_success_rate))

/-- The timeout-rate alert condition in `check_alerts`
(src/serp_monitor.py lines 363-365). -/
def timeoutAlertFires (cfg : Config) (buf : List ℚ) : Bool :=
  buf.length == 3 && buf.all (fun x => decide (x > cfg.threshold_timeout_rate))

/-- The `any(codes[i] in (500,502,504) and ... for i in range(len(codes)-2))`
sliding-window scan of `check_alerts` (src/serp_monitor.py lines 377-382). -/
def found3InRow : List Nat → Bool
  | a :: b :: c :: rest =>
      (isServerError a && isServerError b && isServerError c) ||
        found3InRow (b :: c :: rest)
  | _ => false

/-- `sorted(stats["results"], key=lambda x: x.get("timestamp", 0))`
(src/serp_monitor.py line 375): stable ascending sort on the completion
timestamp. -/
def sortByTimestamp (results : List ProbeResult) : List ProbeResult :=
  results.mergeSort (fun a b => decide (a.timestamp ≤ b.timestamp))

/-- The burst (consecutive 5xx) alert condition in `check_alerts`
(src/serp_monitor.py lines 374-384). -/
def burstAlertFires (results : List ProbeResult) : Bool :=
  found3InRow ((sortByTimestamp results).map (fun r => r.status))

/-- One append onto a `deque(maxlen=3)` rolling-rate buffer
(src/serp_monitor.py lines 409-412 and 462-465): below capacity the value is
appended; at capacity the oldest (head) entry is evicted first. -/
def windowPush (buf : List ℚ) (x : ℚ) : List ℚ :=
  if buf.length < 3 then buf ++ [x] else buf.tail ++ [x]

/-- The rolling buffer obtained from the empty `deque(maxlen=3)` after
pushing one rate per cycle, in cycle order. -/
def pushAll (xs : List ℚ) : List ℚ :=
  xs.foldl windowPush []

/-- Abstract state of one cycle's probe batch under the shared
`asyncio.Semaphore(self.config.concurrency)` (src/serp_monitor.py lines
430-454): how many semaphore permits are free, and how many probe tasks are
waiting to acquire the semaphore, holding it while performing their network
call, or finished (the `async with sem` block releases the permit on every
exit path). -/
structure SchedState where
  permits : Nat
  waiting : Nat
  inFlight : Nat
  finished : Nat
deriving DecidableEq

/-- Cycle start: all permits free, the whole batch waiting, nothing in
flight. -/
def initSched (cfg : Config) (batch : Nat) : SchedState :=
  { permits := cfg.concurrency, waiting := batch, inFlight := 0, finished := 0 }

/-- One scheduler transition of the cooperative event loop: a waiting task
acquires a free permit and goes in flight, or an in-flight task completes
(successfully or not) and releases its permit. -/
inductive SchedStep : SchedState → SchedState → Prop
  | acquire (s : SchedState) (hw : 0 < s.waiting) (hp : 0 < s.permits) :
      SchedStep s
        { permits := s.permits - 1, waiting := s.waiting - 1,
          inFlight := s.inFlight + 1, finished := s.finished }
  | finish (s : SchedState) (hf : 0 < s.inFlight) :
      SchedStep s
        { permits := s.permits + 1, waiting := s.waiting,
          inFlight := s.inFlight - 1, finished := s.finished + 1 }

/-- The states a cycle's batch can be in: those reachable from the cycle
start by scheduler transitions. -/
def SchedReachable (cfg : Config) (batch : Nat) (s : SchedState) : Prop :=
  Relation.ReflTransGen SchedStep (initSched cfg batch) s

/-- Sample configuration matching the constants of
src/SERP_Monitor_log.py (thresholds 95 / 10, timeout limit 10s, floor 2KB)
with the concurrency cap of the end-to-end scenarios. -/
def sampleConfig : Config :=
  { concurrency := 2, requests_per_engine := 5, threshold_success_rate := 95,
    threshold_timeout_rate := 10, timeout_limit := 10, min_content_size_kb := 2 }

/-- A successful google probe result, as `fetch` would build it. -/
def sampleOkResult : ProbeResult :=
  { engine := "google", term := "Apple", status := 200, elapsed := 2,
    is_timeout := false, success := true, content_size := 5, timestamp := 10,
    exception := none }

/-- A 502 google probe result, as `fetch` would build it. -/
def sampleErrResult : ProbeResult :=
  { engine := "google", term := "Bread", status := 502, elapsed := 3,
    is_timeout := false, success := false, content_size := 1, timestamp := 11,
    exception := none }

theorem isServerError_iff (c : Nat) :
    isServerError c = true ↔ IsServerErrorCode c := by
  simp [isServerError, IsServerErrorCode, or_assoc]

/-- Claim C1: for every ProbeResult produced by `fetch` from a normal
HTTP-layer response, `success` is true iff the status equals 200, the
Content-Type header does not contain the HTML marker, and the decoded body
size in kilobytes is at least the configured minimum content-size floor. -/
theorem fetch_success_iff (cfg : Config) (engine term : String)
    (status : Nat) (contentType : String) (bodyBytes : Nat)
    (elapsed timestamp : ℚ) :
    (fetch cfg engine term (.ok status contentType bodyBytes)
        elapsed timestamp).success = true ↔
      status = 200 ∧ hasHtmlMarker contentType = false ∧
        (bodyBytes : ℚ) / 1024 ≥ cfg.min_content_size_kb := by
  simp [fetch, and_assoc]

/-- Claim C6: for every ProbeResult produced by `fetch` from a completed
(non-exception) HTTP-layer response, `is_timeout` is true iff the elapsed
seconds are strictly greater than the configured timeout limit — whatever
the status, headers, body size (and hence `success`) are. -/
theorem fetch_is_timeout_iff (cfg : Config) (engine term : String)
    (status : Nat) (contentType : String) (bodyBytes : Nat)
    (elapsed timestamp : ℚ) :
    (fetch cfg engine term (.ok status contentType bodyBytes)
        elapsed timestamp).is_timeout = true ↔
      elapsed > cfg.timeout_limit := by
  simp [fetch]

/-- Claim C4: for every probe whose network call raises an exception,
`fetch` returns (rather than raising) a ProbeResult with status 0,
success false, is_timeout true, the elapsed time spent before the failure,
content size 0, and the diagnostic string built from the exception class
name and message. -/
theorem fetch_exception_result (cfg : Config) (engine term : String)
    (errType errText : String) (elapsed timestamp : ℚ) :
    (fetch cfg engine term (.exn errType errText) elapsed timestamp).status = 0 ∧
    (fetch cfg engine term (.exn errType errText) elapsed timestamp).success = false ∧
    (fetch cfg engine term (.exn errType errText) elapsed timestamp).is_timeout = true ∧
    (fetch cfg engine term (.exn errType errText) elapsed timestamp).elapsed = elapsed ∧
    (fetch cfg engine term (.exn errType errText) elapsed timestamp).content_size = 0 ∧
    (fetch cfg engine term (.exn errType errText) elapsed timestamp).exception =
      some (errType ++ ": " ++ errText) :=
  ⟨rfl, rfl, rfl, rfl, rfl, rfl⟩

/-- Claim C2: `check_alerts` emits the success-rate alert iff the engine's
success-rate rolling buffer holds exactly 3 entries and every entry is
strictly below the configured success-rate threshold; consequently a single
entry at or above the threshold suppresses it. -/
theorem success_alert_iff (cfg : Config) (buf : List ℚ) :
    successAlertFires cfg buf = true ↔
      buf.length = 3 ∧ ∀ x ∈ buf, x < cfg.threshold_success_rate := by
  simp [successAlertFires]

theorem found3InRow_iff (l : List Nat) :
    found3InRow l = true ↔
      ∃ i, i + 2 < l.length ∧ IsServerErrorCode (l.getD i 0) ∧
        IsServerErrorCode (l.getD (i + 1) 0) ∧
        IsServerErrorCode (l.getD (i + 2) 0) := by
  induction l with
  | nil =>
    constructor
    · intro h
      simp [found3InRow] at h
    · rintro ⟨i, hi, -⟩
      simp at hi
  | cons a tail ih =>
    match tail with
    | [] =>
      constructor
      · intro h
        simp [found3InRow] at h
      · rintro ⟨i, hi, -⟩
        simp at hi
    | [b] =>
      constructor
      · intro h
        simp [found3InRow] at h
      · rintro ⟨i, hi, -⟩
        simp at hi
    | b :: c :: rest =>
      constructor
      · intro h
        rw [found3InRow, Bool.or_eq_true, Bool.and_eq_true, Bool.and_eq_true] at h
        rcases h with ⟨⟨ha, hb⟩, hc⟩ | h
        · refine ⟨0, by simp, ?_, ?_, ?_⟩
          · simpa using (isServerError_iff a).mp ha
          · simpa using (isServerError_iff b).mp hb
          · simpa using (isServerError_iff c).mp hc
        · obtain ⟨j, hj, h1, h2, h3⟩ := ih.mp h
          refine ⟨j + 1, by simpa using Nat.succ_lt_succ hj, ?_, ?_, ?_⟩
          · simpa using h1
          · simpa using h2
          · simpa using h3
      · rintro ⟨i, hi, h1, h2, h3⟩
        rw [found3InRow, Bool.or_eq_true, Bool.and_eq_true, Bool.and_eq_true]
        match i with
        | 0 =>
          left
          refine ⟨⟨?_, ?_⟩, ?_⟩
          · exact (isServerError_iff a).mpr (by simpa using h1)
          · exact (isServerError_iff b).mpr (by simpa using h2)
          · exact (isServerError_iff c).mpr (by simpa using h3)
        | j + 1 =>
          right
          refine ih.mpr ⟨j, ?_, by simpa using h1, by simpa using h2,
            by simpa using h3⟩
          simp only [List.length_cons] at hi ⊢
          omega

/-- Claim C3: `check_alerts` emits the burst alert for an engine's cycle iff,
after the cycle's ProbeResults are sorted in ascending completion-timestamp
order, there are three consecutive positions whose status codes all lie in
the set of 500, 502 and 504. -/
theorem burst_alert_iff (results : List ProbeResult) :
    burstAlertFires results = true ↔
      ∃ i, i + 2 < results.length ∧
        IsServerErrorCode
          (((sortByTimestamp results).map (fun r => r.status)).getD i 0) ∧
        IsServerErrorCode
          (((sortByTimestamp results).map (fun r => r.status)).getD (i + 1) 0) ∧
        IsServerErrorCode
          (((sortByTimestamp results).map (fun r => r.status)).getD (i + 2) 0) := by
  rw [burstAlertFires, found3InRow_iff]
  have hlen : ((sortByTimestamp results).map (fun r => r.status)).length =
      results.length := by
    simp [sortByTimestamp, List.length_mergeSort]
  rw [hlen]

theorem found3InRow_of_short (l : List Nat) (h : l.length < 3) :
    found3InRow l = false := by
  match l, h with
  | [], _ => rfl
  | [a], _ => rfl
  | [a, b], _ => rfl
  | a :: b :: c :: rest, h =>
    simp only [List.length_cons] at h
    omega

/-- Claim C9: an engine whose cycle group holds fewer than 3 ProbeResults can
never trigger the burst alert in that cycle, whatever the status codes. -/
theorem burst_alert_needs_three (results : List ProbeResult)
    (h : results.length < 3) : burstAlertFires results = false := by
  apply found3InRow_of_short
  simpa [sortByTimestamp, List.length_mergeSort] using h

/-- Witness for claim C9 at a concrete 2-element cycle group of 502s. -/
theorem burst_alert_needs_three_witness :
    ([sampleErrResult, sampleErrResult] : List ProbeResult).length < 3 ∧
      burstAlertFires [sampleErrResult, sampleErrResult] = false :=
  ⟨by decide, burst_alert_needs_three _ (by decide)⟩

theorem windowPush_length_le (buf : List ℚ) (x : ℚ) (h : buf.length ≤ 3) :
    (windowPush buf x).length ≤ 3 := by
  unfold windowPush
  split
  · simp
    omega
  · simp [List.length_tail]
    omega

theorem foldl_windowPush_length_le (xs : List ℚ) :
    ∀ buf : List ℚ, buf.length ≤ 3 →
      (xs.foldl windowPush buf).length ≤ 3 := by
  induction xs with
  | nil =>
    intro buf h
    simpa using h
  | cons x xs ih =>
    intro buf h
    exact ih _ (windowPush_length_le buf x h)

theorem pushAll_eq_drop (xs : List ℚ) :
    pushAll xs = xs.drop (xs.length - 3) := by
  induction xs using List.reverseRecOn with
  | nil => rfl
  | append_singleton xs x ih =>
    rw [pushAll, List.foldl_append]
    simp only [List.foldl_cons, List.foldl_nil]
    rw [show List.foldl windowPush [] xs = pushAll xs from rfl, ih]
    by_cases h : xs.length < 3
    · have h0 : xs.length - 3 = 0 := by omega
      have h1 : (xs ++ [x]).length - 3 = 0 := by
        simp only [List.length_append, List.length_cons, List.length_nil]
        omega
      rw [h0, h1, List.drop_zero, List.drop_zero, windowPush, if_pos h]
    · have hdl : (xs.drop (xs.length - 3)).length = 3 := by
        simp only [List.length_drop]
        omega
      rw [windowPush, if_neg (by omega), List.tail_drop]
      have h2 : (xs ++ [x]).length - 3 = xs.length - 3 + 1 := by
        simp only [List.length_append, List.length_cons, List.length_nil]
        omega
      rw [h2, List.drop_append_of_le_length (by omega)]

/-- Claim C5: each rolling rate buffer, grown from the empty
`deque(maxlen=3)` by one push per cycle, never exceeds 3 entries; a push
onto a full buffer evicts exactly the oldest entry and appends the new one
at the back; and the buffer always equals the suffix of the 3 most recent
pushed values in chronological order. -/
theorem rolling_buffer_invariant :
    (∀ rates : List ℚ, (pushAll rates).length ≤ 3) ∧
      (∀ a b c x : ℚ, windowPush [a, b, c] x = [b, c, x]) ∧
      (∀ rates : List ℚ, pushAll rates = rates.drop (rates.length - 3)) :=
  ⟨fun rates => foldl_windowPush_length_le rates [] (by simp),
   fun _ _ _ _ => rfl,
   pushAll_eq_drop⟩

/-- Claim C7: an engine appears as a key of the analysis returned by
`analyze_results` iff at least one ProbeResult of the batch belongs to it;
an engine with no results in the batch is absent rather than reported with
zero counts. -/
theorem analyze_results_key_iff (results : List ProbeResult)
    (engine : String) :
    (analyze_results results engine).isSome = true ↔
      ∃ r ∈ results, r.engine = engine := by
  have key : (groupFor results engine).length = 0 ↔
      ∀ r ∈ results, ¬ r.engine = engine := by
    simp [groupFor, List.length_eq_zero, List.filter_eq_nil_iff]
  rw [analyze_results]
  by_cases h0 : (groupFor results engine).length = 0
  · rw [if_pos h0]
    simp only [Option.isSome_none, Bool.false_eq_true, false_iff]
    rw [key] at h0
    rintro ⟨r, hr, he⟩
    exact h0 r hr he
  · rw [if_neg h0]
    simp only [Option.isSome_some, true_iff]
    rw [key] at h0
    push_neg at h0
    exact h0

/-- Claim C10: the per-engine counts and rounded rates computed by
`analyze_results` are invariant under any permutation of the input batch. -/
theorem analyze_results_perm_invariant (results results2 : List ProbeResult)
    (engine : String) (h : results.Perm results2) :
    (analyze_results results engine).map statsSummary =
      (analyze_results results2 engine).map statsSummary := by
  have hg : (groupFor results engine).Perm (groupFor results2 engine) :=
    h.filter _
  have hlen := hg.length_eq
  by_cases h0 : (groupFor results engine).length = 0
  · rw [analyze_results, analyze_results, if_pos h0, if_pos (by omega)]
  · rw [analyze_results, analyze_results, if_neg h0, if_neg (by omega)]
    simp only [Option.map_some']
    simp only [statsSummary, computeStats]
    rw [hlen, hg.countP_eq, hg.countP_eq, hg.countP_eq, hg.countP_eq]

/-- Witness for claim C10 at a concrete two-element batch and its swap. -/
theorem analyze_results_perm_invariant_witness :
    ([sampleOkResult, sampleErrResult] : List ProbeResult).Perm
        [sampleErrResult, sampleOkResult] ∧
      (analyze_results [sampleOkResult, sampleErrResult] "google").map
          statsSummary =
        (analyze_results [sampleErrResult, sampleOkResult] "google").map
          statsSummary :=
  ⟨List.Perm.swap sampleErrResult sampleOkResult [],
   analyze_results_perm_invariant _ _ _
     (List.Perm.swap sampleErrResult sampleOkResult [])⟩

theorem schedReachable_permits_inFlight (cfg : Config) (batch : Nat)
    (s : SchedState) (h : SchedReachable cfg batch s) :
    s.permits + s.inFlight = cfg.concurrency := by
  induction h with
  | refl => rfl
  | tail hsteps step ih =>
    cases step with
    | acquire hw hp =>
      simp only [SchedState.permits, SchedState.inFlight] at ih ⊢
      omega
    | finish hf =>
      simp only [SchedState.permits, SchedState.inFlight] at ih ⊢
      omega

/-- Claim C8: in every state a cycle's batch can reach under the event-loop
scheduler with the shared semaphore, the number of probes simultaneously in
flight never exceeds the configured concurrency cap, whatever the batch
size. -/
theorem inflight_le_concurrency (cfg : Config) (batch : Nat) (s : SchedState)
    (h : SchedReachable cfg batch s) : s.inFlight ≤ cfg.concurrency := by
  have hi := schedReachable_permits_inFlight cfg batch s h
  omega

/-- Witness for claim C8: with cap 2 and a batch of 5, the state after one
task acquires the semaphore is reachable and within the cap. -/
theorem inflight_le_concurrency_witness :
    SchedReachable sampleConfig 5 ⟨1, 4, 1, 0⟩ ∧
      (⟨1, 4, 1, 0⟩ : SchedState).inFlight ≤ sampleConfig.concurrency :=
  ⟨Relation.ReflTransGen.single
      (SchedStep.acquire (initSched sampleConfig 5) (by decide) (by decide)),
   inflight_le_concurrency sampleConfig 5 ⟨1, 4, 1, 0⟩
     (Relation.ReflTransGen.single
       (SchedStep.acquire (initSched sampleConfig 5) (by decide) (by decide)))⟩
